import Mathlib

/-! A verification development for `ao3rss_rs` (`src/main.rs`): a shallow
embedding of the extraction pipeline (`Work::scrape`, `Chapter::scrape`),
the feed synthesizer (`Work::to_rss`, `rfc822`), the keepalive stream
adapter (`keepalive_future`) and the startup credential logic of `launch`,
together with theorems settling the specified properties.

Conventions: machine integers become `Nat`; fallible Rust code returning
`Result<_, Box<dyn Error>>` becomes `Except String _` (the program only
ever constructs string errors); `Option` stays `Option`.  Collaborator
libraries are modelled at the granularity the program uses them:
the `select` crate's document tree and predicate combinators, `chrono`'s
strict `%Y-%m-%d` parsing and `%a, %d %b %Y` formatting, the `rss` crate's
builders (whose `build()` never fails because every field has a default),
and `tokio::time::interval` (whose first tick completes immediately, then
one tick per period).
-/

namespace Ao3rss

/-! Keepalive stream adapter.

`keepalive_future` wraps a future resolving to `Result<Bytes, E>` into a
stream.  Each loop iteration races the next interval tick against the
wrapped future: if the tick wins, a heartbeat chunk is yielded and the loop
continues; if the future wins, its result is yielded and the loop breaks.

The timeline model: time in milliseconds, the wrapped operation resolves at
time `D`, tick deadlines are at `0, I, 2*I, ...` (tokio's `interval`: the
first tick completes immediately).  The consumer is assumed to accept each
chunk instantly.  When a tick deadline and the resolution coincide exactly,
`select!` polls in random order; the boolean `tieTick` records which side
wins such a tie, and theorems hold for both values.  -/

instance {E A : Type} [DecidableEq E] [DecidableEq A] : DecidableEq (Except E A) := fun x y =>
  match x, y with
  | .ok a, .ok b =>
    if h : a = b then isTrue (by subst h; rfl)
    else isFalse (fun hc => h (Except.ok.inj hc))
  | .ok _, .error _ => isFalse (fun hc => Except.noConfusion hc)
  | .error _, .ok _ => isFalse (fun hc => Except.noConfusion hc)
  | .error a, .error b =>
    if h : a = b then isTrue (by subst h; rfl)
    else isFalse (fun hc => h (Except.error.inj hc))

/-- One chunk of the keepalive stream: either the fixed heartbeat filler or
the terminal chunk carrying the wrapped operation's result. -/
inductive KChunk (E : Type) where
  | heartbeat : KChunk E
  | terminal (res : Except E String) : KChunk E
deriving DecidableEq, Repr

/-- The wire value of a chunk: heartbeats are `Ok(Bytes::from("<!-- keepalive -->"))`. -/
def KChunk.value {E : Type} : KChunk E → Except E String
  | .heartbeat => .ok "<!-- keepalive -->"
  | .terminal res => res

/-- The loop body of `keepalive_future`, from tick index `k`, with fuel
(the Rust loop is unbounded; `keepalive_chunks` supplies sufficient fuel).
Tick `k` has deadline `k * I`; it wins the race iff its deadline is before
`D`, or equal to `D` with `tieTick` set. -/
def keepaliveStep {E : Type} (I D : ℕ) (res : Except E String) (tieTick : Bool) :
    ℕ → ℕ → List (KChunk E)
  | _, 0 => []
  | k, fuel + 1 =>
    if k * I < D ∨ (k * I = D ∧ tieTick = true) then
      .heartbeat :: keepaliveStep I D res tieTick (k + 1) fuel
    else
      [.terminal res]

/-- The chunk sequence produced by one invocation of the adapter loop with
interval `I`, resolution time `D` and result `res`.  Fuel `D + 2` exceeds
the number of ticks whose deadline can be `≤ D`. -/
def keepalive_chunks {E : Type} (I D : ℕ) (res : Except E String) (tieTick : Bool) :
    List (KChunk E) :=
  keepaliveStep I D res tieTick 0 (D + 2)

/-- Source `keepalive_future` as written: the interval is fixed at 1000 ms. -/
def keepalive_future {E : Type} (D : ℕ) (res : Except E String) (tieTick : Bool) :
    List (KChunk E) :=
  keepalive_chunks 1000 D res tieTick

/-- Number of heartbeat chunks the loop emits: ticks with deadline `< D`
(plus the tying tick when `tieTick`). -/
def hbCount (I D : ℕ) : Bool → ℕ
  | true => D / I + 1
  | false => if D = 0 then 0 else (D - 1) / I + 1

theorem hbCount_false (I D : ℕ) (hD : D ≠ 0) :
    hbCount I D false = (D - 1) / I + 1 := by
  simp [hbCount, hD]

theorem tick_wins_iff (I D k : ℕ) (tieTick : Bool) (hI : 0 < I) :
    (k * I < D ∨ (k * I = D ∧ tieTick = true)) ↔ k < hbCount I D tieTick := by
  cases tieTick with
  | true =>
    show _ ↔ k < D / I + 1
    have hdiv : k ≤ D / I ↔ k * I ≤ D := Nat.le_div_iff_mul_le hI
    constructor
    · rintro (h | ⟨h, -⟩)
      · have := hdiv.mpr h.le; omega
      · have := hdiv.mpr h.le; omega
    · intro h
      have h2 : k * I ≤ D := hdiv.mp (by omega)
      rcases h2.lt_or_eq with h' | h'
      · exact Or.inl h'
      · exact Or.inr ⟨h', rfl⟩
  | false =>
    constructor
    · rintro (h | ⟨-, h⟩)
      · have hD : D ≠ 0 := by omega
        rw [hbCount_false I D hD]
        have hdiv : k ≤ (D - 1) / I ↔ k * I ≤ D - 1 := Nat.le_div_iff_mul_le hI
        have := hdiv.mpr (by omega); omega
      · exact absurd h (by decide)
    · intro h
      by_cases hD : D = 0
      · subst hD; simp [hbCount] at h
      · rw [hbCount_false I D hD] at h
        have hdiv : k ≤ (D - 1) / I ↔ k * I ≤ D - 1 := Nat.le_div_iff_mul_le hI
        have h2 : k * I ≤ D - 1 := hdiv.mp (by omega)
        exact Or.inl (by omega)

theorem hbCount_le (I D : ℕ) (tieTick : Bool) (_hI : 0 < I) :
    hbCount I D tieTick ≤ D + 1 := by
  cases tieTick with
  | true =>
    show D / I + 1 ≤ D + 1
    have := Nat.div_le_self D I
    omega
  | false =>
    by_cases hD : D = 0
    · subst hD; simp [hbCount]
    · rw [hbCount_false I D hD]
      have := Nat.div_le_self (D - 1) I
      omega

theorem keepaliveStep_closed {E : Type} (I D : ℕ) (res : Except E String)
    (tieTick : Bool) (hI : 0 < I) :
    ∀ (n k fuel : ℕ), n = hbCount I D tieTick - k → k ≤ hbCount I D tieTick →
      n + 1 ≤ fuel →
      keepaliveStep I D res tieTick k fuel =
        List.replicate n .heartbeat ++ [.terminal res] := by
  intro n
  induction n with
  | zero =>
    intro k fuel hn hk hfuel
    have hk' : hbCount I D tieTick ≤ k := by omega
    obtain ⟨f, rfl⟩ : ∃ f, fuel = f + 1 := ⟨fuel - 1, by omega⟩
    simp only [keepaliveStep]
    rw [if_neg]
    · simp
    · rw [tick_wins_iff I D k tieTick hI]
      omega
  | succ m ih =>
    intro k fuel hn hk hfuel
    have hklt : k < hbCount I D tieTick := by omega
    obtain ⟨f, rfl⟩ : ∃ f, fuel = f + 1 := ⟨fuel - 1, by omega⟩
    simp only [keepaliveStep]
    rw [if_pos ((tick_wins_iff I D k tieTick hI).mpr hklt)]
    rw [ih (k + 1) f (by omega) (by omega) (by omega)]
    simp [List.replicate_succ]

/-- Closed form of the adapter's output: `hbCount` heartbeats then the
terminal chunk. -/
theorem keepalive_chunks_eq {E : Type} (I D : ℕ) (res : Except E String)
    (tieTick : Bool) (hI : 0 < I) :
    keepalive_chunks I D res tieTick =
      List.replicate (hbCount I D tieTick) .heartbeat ++ [.terminal res] := by
  unfold keepalive_chunks
  exact keepaliveStep_closed I D res tieTick hI _ 0 (D + 2) (by omega)
    (by omega) (by have := hbCount_le I D tieTick hI; omega)

/-! Document tree model (the `select` crate collaborator).

A parsed document is a forest of nodes; an element node carries its tag
name, attribute list and children, a text node its text.  The `select`
predicates used by the program (`Name`, `Class`, `Attr`, `.and`, `.child`,
`.descendant`) are evaluated against a node together with its ancestor
chain (nearest ancestor first).  `Document::find` iterates all nodes in
document (pre-)order; `Node::find` iterates a node's descendants in
document order, the node itself excluded. -/

inductive Node where
  | elem (tag : String) (attrs : List (String × String)) (children : List Node) : Node
  | txt (s : String) : Node

def Node.attr (n : Node) (k : String) : Option String :=
  match n with
  | .elem _ attrs _ => (attrs.find? (fun p => p.1 = k)).map (fun p => p.2)
  | .txt _ => none

def splitWSAux : List Char → List Char → List String
  | [], acc => if acc.isEmpty then [] else [String.mk acc.reverse]
  | c :: cs, acc =>
    if c = ' ' then
      if acc.isEmpty then splitWSAux cs []
      else String.mk acc.reverse :: splitWSAux cs []
    else splitWSAux cs (c :: acc)

/-- Collaborator `str::split_whitespace`: split into maximal non-space runs. -/
def splitWS (s : String) : List String := splitWSAux s.toList []

/-- The class list: the `class` attribute split on whitespace (as
`select`'s `Class` predicate does). -/
def Node.classes (n : Node) : List String :=
  match n.attr "class" with
  | none => []
  | some s => splitWS s

/-- The `select` predicate combinators used by the program. -/
inductive Pred where
  | name (tag : String)
  | cls (c : String)
  | attr (key val : String)
  | and (p q : Pred)
  | child (p q : Pred)
  | descendant (p q : Pred)

/-- Each ancestor paired with its own ancestor chain: the proper suffixes
of the chain. -/
def ancTails : List Node → List (Node × List Node)
  | [] => []
  | a :: rest => (a, rest) :: ancTails rest

def Pred.matches : Pred → Node → List Node → Bool
  | .name t, n, _ =>
    match n with
    | .elem tag _ _ => tag = t
    | .txt _ => false
  | .cls c, n, _ => n.classes.contains c
  | .attr k v, n, _ => n.attr k = some v
  | .and p q, n, anc => p.matches n anc && q.matches n anc
  | .child p q, n, anc =>
    q.matches n anc &&
      (match anc with
       | [] => false
       | parent :: rest => p.matches parent rest)
  | .descendant p q, n, anc =>
    q.matches n anc && (ancTails anc).any (fun pr => p.matches pr.1 pr.2)

mutual

/-- All nodes of the subtree rooted at a node, in document (pre-)order,
each paired with its ancestor chain (nearest first); `anc` is the root's
own ancestor chain. -/
def Node.subAnc : Node → List Node → List (Node × List Node)
  | .elem t a cs, anc =>
    (Node.elem t a cs, anc) :: Node.listSubAnc cs (Node.elem t a cs :: anc)
  | .txt s, anc => [(Node.txt s, anc)]

def Node.listSubAnc : List Node → List Node → List (Node × List Node)
  | [], _ => []
  | n :: rest, anc => Node.subAnc n anc ++ Node.listSubAnc rest anc

end

/-- The proper descendants of a node, in document order, with ancestor chains. -/
def Node.descPairs : Node → List Node → List (Node × List Node)
  | .elem t a cs, anc => Node.listSubAnc cs (Node.elem t a cs :: anc)
  | .txt _, _ => []

/-- Collaborator `Node::find`: the node's descendants matching the predicate, in
document order. -/
def Node.findDesc (n : Node) (anc : List Node) (p : Pred) :
    List (Node × List Node) :=
  (n.descPairs anc).filter (fun pr => p.matches pr.1 pr.2)

abbrev Document := List Node

/-- Collaborator `Document::find`: all nodes matching the predicate, in document order. -/
def Document.find (doc : Document) (p : Pred) : List (Node × List Node) :=
  (Node.listSubAnc doc []).filter (fun pr => p.matches pr.1 pr.2)

mutual

/-- Collaborator `Node::text`: concatenated text of all text nodes of the subtree. -/
def Node.text : Node → String
  | .elem _ _ cs => Node.textList cs
  | .txt s => s

def Node.textList : List Node → String
  | [] => ""
  | n :: rest => Node.text n ++ Node.textList rest

end

def attrsString (attrs : List (String × String)) : String :=
  attrs.foldl (fun acc p => acc ++ " " ++ p.1 ++ "=" ++ "\"" ++ p.2 ++ "\"") ""

mutual

/-- Collaborator `Node::html`: the node serialized back to markup. -/
def Node.html : Node → String
  | .elem t a cs =>
    "<" ++ t ++ attrsString a ++ ">" ++ Node.htmlList cs ++ "</" ++ t ++ ">"
  | .txt s => s

def Node.htmlList : List Node → String
  | [] => ""
  | n :: rest => Node.html n ++ Node.htmlList rest

end

/-- Collaborator `Node::inner_html`: the serialized children (markup preserved). -/
def Node.inner_html : Node → String
  | .elem _ _ cs => Node.htmlList cs
  | .txt _ => ""

/-- Collaborator `Node::children`: the direct children. -/
def Node.children : Node → List Node
  | .elem _ _ cs => cs
  | .txt _ => []

/-! Calendar dates (the `chrono` collaborator). -/

structure Date where
  year : ℕ
  month : ℕ
  day : ℕ
deriving DecidableEq, Repr

def isLeap (y : ℕ) : Bool :=
  (y % 4 = 0 && y % 100 ≠ 0) || y % 400 = 0

def daysInMonth (y m : ℕ) : ℕ :=
  if m = 2 then (if isLeap y then 29 else 28)
  else if m = 4 ∨ m = 6 ∨ m = 9 ∨ m = 11 then 30
  else 31

def takeDigits : ℕ → List Char → List Char × List Char
  | 0, cs => ([], cs)
  | _ + 1, [] => ([], [])
  | m + 1, c :: cs =>
    if c.isDigit then
      let (ds, rest) := takeDigits m cs
      (c :: ds, rest)
    else ([], c :: cs)

def digitsToNat (ds : List Char) : ℕ :=
  ds.foldl (fun acc c => acc * 10 + (c.toNat - 48)) 0

def skipSpaces : List Char → List Char
  | [] => []
  | c :: cs => if c = ' ' then skipSpaces cs else c :: cs

/-- A numeric format item: chrono skips leading whitespace, then reads at
least one and at most `maxDigits` digits. -/
def parseNum (maxDigits : ℕ) (cs : List Char) : Option (ℕ × List Char) :=
  let cs := skipSpaces cs
  let (ds, rest) := takeDigits maxDigits cs
  if ds.isEmpty then none else some (digitsToNat ds, rest)

def expectChar (c : Char) : List Char → Option (List Char)
  | [] => none
  | d :: cs => if d = c then some cs else none

/-- Modelled collaborator: `chrono::NaiveDate::parse_from_str(s, "%Y-%m-%d")`.
Strict: a 4-digit-max year, a literal hyphen, a 2-digit-max month, a
literal hyphen, a 2-digit-max day, the whole input consumed, and the
triple must be a valid proleptic-Gregorian calendar date. -/
def parse_ymd (s : String) : Option Date := do
  let (y, cs) ← parseNum 4 s.toList
  let cs ← expectChar '-' cs
  let (m, cs) ← parseNum 2 cs
  let cs ← expectChar '-' cs
  let (d, cs) ← parseNum 2 cs
  if cs.isEmpty then
    if 1 ≤ m ∧ m ≤ 12 ∧ 1 ≤ d ∧ d ≤ daysInMonth y m then
      some ⟨y, m, d⟩
    else none
  else none

/-- Source `parse_date_from_node`: parse the node's text with the
strict `%Y-%m-%d` format, `None` on failure. -/
def parse_date_from_node (n : Node) : Option Date :=
  parse_ymd n.text

/-! The extraction pipeline. -/

/-- Selector `Name("h2").and(Class("title"))` — the work title selector. -/
def titleSel : Pred := .and (.name "h2") (.cls "title")

/-- Selector `Attr("id", "workskin").child(Class("preface")).descendant(Class("userstuff"))`. -/
def workSummarySel : Pred :=
  .descendant (.child (.attr "id" "workskin") (.cls "preface")) (.cls "userstuff")

/-- Selector `Class("published").and(Name("dd"))`. -/
def publishedSel : Pred := .and (.cls "published") (.name "dd")

/-- Selector `Class("status").and(Name("dd"))`. -/
def updatedSel : Pred := .and (.cls "status") (.name "dd")

/-- Selector `Attr("id", "chapters").child(Class("chapter"))` — the chapter-container selector. -/
def chaptersSel : Pred := .child (.attr "id" "chapters") (.cls "chapter")

/-- Selector `Class("summary").child(Class("userstuff"))` — the chapter summary selector. -/
def chapterSummarySel : Pred := .child (.cls "summary") (.cls "userstuff")

structure Chapter where
  title : String
  link : String
  summary : Option String
  pre_notes : Option String
  content : String
  post_notes : Option String
deriving DecidableEq, Repr

structure Work where
  work_id : ℕ
  title : String
  summary : Option String
  notes : Option String
  post_notes : Option String
  publish_date : Date
  update_date : Date
  chapters : List Chapter
deriving DecidableEq, Repr

/-- Source `Chapter::scrape`, on a chapter node with its ancestor chain. -/
def Chapter.scrape (chapter_node : Node) (anc : List Node) :
    Except String Chapter :=
  match (chapter_node.findDesc anc (.cls "title")).head? with
  | none => .error "Missing Chapter Title"
  | some (title_node, title_anc) =>
    match (title_node.findDesc title_anc (.name "a")).head? with
    | none => .error "Missing Chapter Link"
    | some (link_node, _) =>
      match link_node.attr "href" with
      | none => .error "Missing href?"
      | some chapter_link =>
        match (chapter_node.children.find?
            (fun c => Pred.matches (.cls "userstuff") c (chapter_node :: anc))).map
            Node.inner_html with
        | none => .error "Missing content"
        | some content =>
          .ok { title := title_node.text
                link := "https://archiveofourown.org" ++ chapter_link
                summary := ((chapter_node.findDesc anc chapterSummarySel).head?).map
                  (fun pr => pr.1.inner_html)
                pre_notes := none
                content := content
                post_notes := none }

/-- Rust's `Iterator::collect::<Result<Vec<_>, _>>` over a mapped
iterator: apply `f` left to right, stopping at the first error. -/
def collectExcept {α β : Type} (f : α → Except String β) :
    List α → Except String (List β)
  | [] => .ok []
  | a :: rest =>
    match f a with
    | .error e => .error e
    | .ok b =>
      match collectExcept f rest with
      | .error e => .error e
      | .ok bs => .ok (b :: bs)

/-- Source `Work::scrape`, with the fetch collaborator already resolved to a
parsed document.  Field expressions are evaluated in the source's order;
each `?` short-circuits with its field-specific error. -/
def Work.scrape (doc : Document) (work_id : ℕ) : Except String Work :=
  match (Document.find doc titleSel).head? with
  | none => .error "Missing Work Title"
  | some (title_node, _) =>
    match (Document.find doc publishedSel).head?.bind
        (fun pr => parse_date_from_node pr.1) with
    | none => .error "Missing Publish Date"
    | some publish_date =>
      match (Document.find doc updatedSel).head?.bind
          (fun pr => parse_date_from_node pr.1) with
      | none => .error "Missing Update Date"
      | some update_date =>
        match collectExcept (fun pr => Chapter.scrape pr.1 pr.2)
            (Document.find doc chaptersSel) with
        | .error e => .error e
        | .ok chapters =>
          .ok { work_id := work_id
                title := title_node.text
                summary := ((Document.find doc workSummarySel).head?).map
                  (fun pr => pr.1.text)
                notes := none
                post_notes := none
                publish_date := publish_date
                update_date := update_date
                chapters := chapters }

/-! Feed synthesizer (the `rss` collaborator crate).

The `rss` builders are generated by `derive_builder` with every field
carrying a default value, so `build()` can never return `Err`; the model
keeps the `Option` shape of `build()` so that the `unwrap` calls in
`Work::to_rss` are visible as such. -/

structure Guid where
  value : String
  permalink : Bool
deriving DecidableEq, Repr

structure Item where
  title : Option String
  link : Option String
  description : Option String
  content : Option String
  guid : Option Guid
deriving DecidableEq, Repr

structure Channel where
  title : String
  description : String
  link : String
  pub_date : Option String
  last_build_date : Option String
  generator : Option String
  namespaces : List (String × String)
  items : List Item
deriving DecidableEq, Repr

def GuidBuilder.build (value : String) (permalink : Bool) : Option Guid :=
  some { value := value, permalink := permalink }

def ItemBuilder.build (title link description content : Option String)
    (guid : Option Guid) : Option Item :=
  some { title := title, link := link, description := description,
         content := content, guid := guid }

def ChannelBuilder.build (title description link : String)
    (pub_date last_build_date generator : Option String)
    (namespaces : List (String × String)) (items : List Item) :
    Option Channel :=
  some { title := title, description := description, link := link,
         pub_date := pub_date, last_build_date := last_build_date,
         generator := generator, namespaces := namespaces, items := items }

/-- Weekday of a (proleptic-Gregorian, CE) date by Zeller's congruence,
as chrono's `%a` renders it. -/
def weekdayAbbr (d : Date) : String :=
  let ym : ℕ × ℕ :=
    if d.month ≤ 2 then (d.year - 1, d.month + 12) else (d.year, d.month)
  let K := ym.1 % 100
  let J := ym.1 / 100
  let h := (d.day + (13 * (ym.2 + 1)) / 5 + K + K / 4 + J / 4 + 5 * J) % 7
  match h with
  | 0 => "Sat"
  | 1 => "Sun"
  | 2 => "Mon"
  | 3 => "Tue"
  | 4 => "Wed"
  | 5 => "Thu"
  | _ => "Fri"

def monthAbbr : ℕ → String
  | 1 => "Jan"
  | 2 => "Feb"
  | 3 => "Mar"
  | 4 => "Apr"
  | 5 => "May"
  | 6 => "Jun"
  | 7 => "Jul"
  | 8 => "Aug"
  | 9 => "Sep"
  | 10 => "Oct"
  | 11 => "Nov"
  | _ => "Dec"

def pad2 (n : ℕ) : String :=
  if n < 10 then "0" ++ toString n else toString n

def pad4 (n : ℕ) : String :=
  if n < 10 then "000" ++ toString n
  else if n < 100 then "00" ++ toString n
  else if n < 1000 then "0" ++ toString n
  else toString n

/-- Source `rfc822`: `date.format("%a, %d %b %Y 00:00:00 +0000")`. -/
def rfc822 (date : Date) : String :=
  weekdayAbbr date ++ ", " ++ pad2 date.day ++ " " ++ monthAbbr date.month
    ++ " " ++ pad4 date.year ++ " 00:00:00 +0000"

/-- One item of `Work::to_rss`: the `ItemBuilder` chain for one chapter,
`guid` built first (the source unwraps each `build()`; `none` here is the
would-be panic). -/
def chapterItem (chapter : Chapter) : Option Item :=
  match GuidBuilder.build chapter.link true with
  | none => none
  | some guid =>
    ItemBuilder.build (some chapter.title) (some chapter.link)
      chapter.summary (some chapter.content) (some guid)

/-- Source `Work::to_rss`. -/
def Work.to_rss (w : Work) : Option Channel :=
  match w.chapters.mapM chapterItem with
  | none => none
  | some items =>
    ChannelBuilder.build w.title (w.summary.getD "AO3 Fic")
      ("https://archiveofourown.org/works/" ++ toString w.work_id)
      (some (rfc822 w.publish_date)) (some (rfc822 w.update_date))
      (some "https://github.com/kitlith/ao3rss_rs")
      [("content", "http://purl.org/rss/1.0/modules/content/")]
      items

/-! Startup credential logic (`launch`, Client Config fairing). -/

/-- Result of `config.get_str(key)`: present, missing, or some other
configuration error (e.g. a value of the wrong type). -/
inductive ConfigGet where
  | ok (s : String)
  | errMissing (key : String)
  | errOther
deriving DecidableEq, Repr

inductive LaunchOutcome where
  | serveUnauthenticated
  | serveAfterLogin (username password : String)
  | crash
deriving DecidableEq, Repr

/-- The credential match in `launch`: arm order as in the source.  If
either key is missing it is ignored and serving proceeds without login;
if both are present the login handshake runs before serving; any other
error pair panics (`e1.unwrap(); e2.unwrap()`). -/
def launch_credentials (u p : ConfigGet) : LaunchOutcome :=
  match u, p with
  | .errMissing _, _ => .serveUnauthenticated
  | _, .errMissing _ => .serveUnauthenticated
  | .ok username, .ok password => .serveAfterLogin username password
  | _, _ => .crash

/-! Concrete documents used to instantiate the theorems. -/

def sampleChapter1 : Node :=
  .elem "div" [("class", "chapter")]
    [ .elem "h3" [("class", "title")]
        [ .txt "Chapter 1: ",
          .elem "a" [("href", "/works/12345/chapters/1")] [.txt "One"] ]
    , .elem "div" [("class", "userstuff")] [.txt "Content one."] ]

def sampleChapter2 : Node :=
  .elem "div" [("class", "chapter")]
    [ .elem "h3" [("class", "title")]
        [ .txt "Chapter 2: ",
          .elem "a" [("href", "/works/12345/chapters/2")] [.txt "Two"] ]
    , .elem "div" [("class", "summary")]
        [ .elem "div" [("class", "userstuff")] [.elem "em" [] [.txt "Ch2 sum"]] ]
    , .elem "div" [("class", "userstuff")] [.elem "p" [] [.txt "Content two."]] ]

/-- A well-formed document: every required element present, two chapters. -/
def sampleDoc : Document :=
  [ .elem "div" [("id", "workskin")]
      [ .elem "div" [("class", "preface")]
          [ .elem "div" [("class", "userstuff")] [.elem "em" [] [.txt "A summary."]] ] ]
  , .elem "h2" [("class", "title")] [.txt "Sample Fic"]
  , .elem "dd" [("class", "published")] [.txt "2020-01-01"]
  , .elem "dd" [("class", "status")] [.txt "2020-01-02"]
  , .elem "div" [("id", "chapters")] [sampleChapter1, sampleChapter2] ]

/-- The Chapter extracted from `sampleChapter1`. -/
def sampleChapterRec1 : Chapter :=
  { title := "Chapter 1: One"
    link := "https://archiveofourown.org/works/12345/chapters/1"
    summary := none
    pre_notes := none
    content := "Content one."
    post_notes := none }

/-- The Chapter extracted from `sampleChapter2`. -/
def sampleChapterRec2 : Chapter :=
  { title := "Chapter 2: Two"
    link := "https://archiveofourown.org/works/12345/chapters/2"
    summary := some "<em>Ch2 sum</em>"
    pre_notes := none
    content := "<p>Content two.</p>"
    post_notes := none }

/-- The Work extracted from `sampleDoc`. -/
def sampleWork : Work :=
  { work_id := 12345
    title := "Sample Fic"
    summary := some "A summary."
    notes := none
    post_notes := none
    publish_date := ⟨2020, 1, 1⟩
    update_date := ⟨2020, 1, 2⟩
    chapters := [sampleChapterRec1, sampleChapterRec2] }

/-- A document whose title is present and whose publish-date element
carries the given text; no update-date element. -/
def docWithDate (s : String) : Document :=
  [ .elem "h2" [("class", "title")] [.txt "Sample Fic"]
  , .elem "dd" [("class", "published")] [.txt s] ]

/-- Title present, publish-date element absent. -/
def docNoDate : Document :=
  [ .elem "h2" [("class", "title")] [.txt "Sample Fic"] ]

/-- Valid title and dates, but the single chapter block is empty (its
title element is missing). -/
def docBadChapter : Document :=
  [ .elem "h2" [("class", "title")] [.txt "Sample Fic"]
  , .elem "dd" [("class", "published")] [.txt "2020-01-01"]
  , .elem "dd" [("class", "status")] [.txt "2020-01-02"]
  , .elem "div" [("id", "chapters")] [.elem "div" [("class", "chapter")] []] ]

/-- Valid title and publish date, malformed update date. -/
def docBadUpdate : Document :=
  [ .elem "h2" [("class", "title")] [.txt "Sample Fic"]
  , .elem "dd" [("class", "published")] [.txt "2020-01-01"]
  , .elem "dd" [("class", "status")] [.txt "yesterday"] ]

/-- A chapter block whose title element has no anchor. -/
def chapterNoAnchor : Node :=
  .elem "div" [("class", "chapter")]
    [ .elem "h3" [("class", "title")] [.txt "Chapter 1"] ]

/-- A chapter block whose title anchor has no `href` attribute. -/
def chapterNoHref : Node :=
  .elem "div" [("class", "chapter")]
    [ .elem "h3" [("class", "title")] [.txt "Chapter 1: ", .elem "a" [] [.txt "One"]] ]

/-! Claim theorems. -/

def KChunk.isTerminal {E : Type} : KChunk E → Bool
  | .terminal _ => true
  | .heartbeat => false

/-- C1 counterexample: the claim predicts that an operation resolving
after 500 ms, with the 1000 ms heartbeat interval, produces
`floor(500/1000) = 0` heartbeat chunks and one terminal chunk, i.e. the
sequence `[terminal]`.  The code's interval fires its first tick
immediately, so the adapter emits one heartbeat before the terminal chunk
(for either winner of a simultaneous-readiness tie). -/
theorem c1_counterexample :
    keepalive_future 500 (Except.ok "feed") false
        ≠ ([.terminal (Except.ok "feed")] : List (KChunk String)) ∧
    keepalive_future 500 (Except.ok "feed") true
        ≠ ([.terminal (Except.ok "feed")] : List (KChunk String)) ∧
    keepalive_future 500 (Except.ok "feed") false
        = ([.heartbeat, .terminal (Except.ok "feed")] : List (KChunk String)) ∧
    keepalive_future 500 (Except.ok "feed") true
        = ([.heartbeat, .terminal (Except.ok "feed")] : List (KChunk String)) := by
  refine ⟨?_, ?_, ?_, ?_⟩ <;> decide

/-- C1 (amended): for every wrapped operation resolving after a positive
duration `D` that is not an exact multiple of the heartbeat interval `I`,
the chunk sequence contains exactly `D / I + 1` (that is, `ceil(D/I)`)
heartbeat chunks — the first tick fires immediately at elapsed time zero —
followed by exactly one terminal chunk carrying the operation's result; in
particular an operation resolving before the first interval elapses yields
exactly one heartbeat chunk and one terminal chunk. -/
theorem c1_keepalive_heartbeat_count {E : Type} (I D : ℕ)
    (res : Except E String) (tieTick : Bool)
    (hI : 0 < I) (hD : 0 < D) (hnd : ¬ I ∣ D) :
    keepalive_chunks I D res tieTick =
      List.replicate (D / I + 1) .heartbeat ++ [.terminal res] := by
  rw [keepalive_chunks_eq I D res tieTick hI]
  suffices h : hbCount I D tieTick = D / I + 1 by rw [h]
  have hD' : D ≠ 0 := by omega
  have hsucc : D / I = (D - 1) / I := by
    have h1 : (D - 1 + 1) / I = (D - 1) / I + if I ∣ D - 1 + 1 then 1 else 0 :=
      Nat.succ_div _ _
    have hd1 : D - 1 + 1 = D := by omega
    rw [hd1] at h1
    rw [if_neg hnd] at h1
    rw [Nat.add_zero] at h1
    exact h1
  cases tieTick with
  | true => rfl
  | false => rw [hbCount_false I D hD', hsucc]

theorem c1_witness :
    (0 < 1000 ∧ 0 < 500 ∧ ¬ (1000 : ℕ) ∣ 500) ∧
    keepalive_chunks 1000 500 (Except.ok "feed") false =
      List.replicate (500 / 1000 + 1) (KChunk.heartbeat (E := String))
        ++ [.terminal (Except.ok "feed")] :=
  ⟨by decide,
   c1_keepalive_heartbeat_count 1000 500 (Except.ok "feed") false
     (by decide) (by decide) (by decide)⟩

/-- C5: for every invocation of the keepalive adapter, the produced chunk
sequence contains exactly one terminal chunk, carrying the wrapped
operation's result; the terminal chunk is the last element of the
sequence, and every chunk before it is a heartbeat. -/
theorem c5_single_terminal_last {E : Type} (I D : ℕ)
    (res : Except E String) (tieTick : Bool) (hI : 0 < I) :
    (keepalive_chunks I D res tieTick).countP (fun c => c.isTerminal) = 1 ∧
    (keepalive_chunks I D res tieTick).getLast? = some (.terminal res) ∧
    ∀ c ∈ (keepalive_chunks I D res tieTick).dropLast, c = KChunk.heartbeat := by
  rw [keepalive_chunks_eq I D res tieTick hI]
  refine ⟨?_, ?_, ?_⟩
  · rw [List.countP_append]
    have h1 : (List.replicate (hbCount I D tieTick)
        (KChunk.heartbeat (E := E))).countP (fun c => c.isTerminal) = 0 := by
      rw [List.countP_eq_zero]
      intro c hc
      rw [List.eq_of_mem_replicate hc]
      exact Bool.false_ne_true
    rw [h1]
    rfl
  · exact List.getLast?_concat _
  · rw [List.dropLast_concat]
    intro c hc
    exact List.eq_of_mem_replicate hc

theorem c5_witness :
    (0 < 1000) ∧
    ((keepalive_chunks 1000 2500 (Except.error "boom") false).countP
        (fun c => c.isTerminal) = 1 ∧
      (keepalive_chunks 1000 2500 (Except.error "boom")
          false).getLast? = some (.terminal (Except.error "boom")) ∧
      ∀ c ∈ (keepalive_chunks 1000 2500 (Except.error ("boom" : String))
          false).dropLast, c = KChunk.heartbeat) :=
  ⟨by decide, c5_single_terminal_last 1000 2500 (Except.error "boom") false (by decide)⟩

/-- C7 counterexample: with the username present and the password missing
(exactly one credential present), the claim says startup fails; the code's
first two match arms ignore a missing key, so the process begins serving
unauthenticated. -/
theorem c7_counterexample :
    launch_credentials (.ok "alice") (.errMissing "ao3_password")
        = .serveUnauthenticated ∧
    launch_credentials (.ok "alice") (.errMissing "ao3_password")
        ≠ .crash ∧
    launch_credentials (.errMissing "ao3_username") (.ok "hunter2")
        = .serveUnauthenticated := by
  refine ⟨rfl, ?_, rfl⟩
  decide

/-- C7 (amended): if both credentials are present, the login handshake
runs once before serving begins; if either credential is missing —
including when exactly one of the two is present — serving begins
unauthenticated without a login attempt; startup fails only when reading
a credential key yields an error other than "missing". -/
theorem c7_launch_credentials :
    (∀ u p, launch_credentials (.ok u) (.ok p) = .serveAfterLogin u p) ∧
    (∀ k p, launch_credentials (.errMissing k) p = .serveUnauthenticated) ∧
    (∀ u k, launch_credentials u (.errMissing k) = .serveUnauthenticated) ∧
    (∀ p, launch_credentials .errOther (.ok p) = .crash) ∧
    (∀ u, launch_credentials (.ok u) .errOther = .crash) ∧
    launch_credentials .errOther .errOther = .crash := by
  refine ⟨fun u p => rfl, fun k p => ?_, fun u k => ?_, fun p => rfl, fun u => rfl, rfl⟩
  · cases p <;> rfl
  · cases u <;> rfl

theorem collectExcept_ok_length {α β : Type} (f : α → Except String β) :
    ∀ (l : List α) (l' : List β), collectExcept f l = .ok l' →
      l'.length = l.length := by
  intro l
  induction l with
  | nil =>
    intro l' h
    simp only [collectExcept] at h
    cases h
    rfl
  | cons a rest ih =>
    intro l' h
    cases hfa : f a with
    | error e =>
      simp only [collectExcept, hfa] at h
      exact Except.noConfusion h
    | ok b =>
      cases hc : collectExcept f rest with
      | error e =>
        simp only [collectExcept, hfa, hc] at h
        exact Except.noConfusion h
      | ok bs =>
        simp only [collectExcept, hfa, hc] at h
        cases h
        simp [ih bs hc]

theorem collectExcept_ok_get {α β : Type} (f : α → Except String β) :
    ∀ (l : List α) (l' : List β), collectExcept f l = .ok l' →
      ∀ (i : ℕ) (hi : i < l.length) (hi' : i < l'.length),
        f (l.get ⟨i, hi⟩) = .ok (l'.get ⟨i, hi'⟩) := by
  intro l
  induction l with
  | nil =>
    intro l' h i hi hi'
    exact absurd hi (by simp)
  | cons a rest ih =>
    intro l' h i hi hi'
    cases hfa : f a with
    | error e =>
      simp only [collectExcept, hfa] at h
      exact Except.noConfusion h
    | ok b =>
      cases hc : collectExcept f rest with
      | error e =>
        simp only [collectExcept, hfa, hc] at h
        exact Except.noConfusion h
      | ok bs =>
        simp only [collectExcept, hfa, hc] at h
        cases h
        cases i with
        | zero => exact hfa
        | succ j =>
          exact ih bs hc j (Nat.lt_of_succ_lt_succ hi) (Nat.lt_of_succ_lt_succ hi')

/-- C3: a document missing a required field makes extraction fail with
that field's error and produce no Work: a missing title element yields the
title error; an absent-or-unparsable publish (resp. update) date yields
the publish (resp. update) error; an error while scraping any chapter
aborts the whole extraction with that chapter's error; and an extraction
that errors never also returns a Work. -/
theorem c3_missing_field_aborts (doc : Document) (work_id : ℕ) :
    ((Document.find doc titleSel).head? = none →
        Work.scrape doc work_id = .error "Missing Work Title") ∧
    (∀ tp, (Document.find doc titleSel).head? = some tp →
        (Document.find doc publishedSel).head?.bind
          (fun pr => parse_date_from_node pr.1) = none →
        Work.scrape doc work_id = .error "Missing Publish Date") ∧
    (∀ tp d1, (Document.find doc titleSel).head? = some tp →
        (Document.find doc publishedSel).head?.bind
          (fun pr => parse_date_from_node pr.1) = some d1 →
        (Document.find doc updatedSel).head?.bind
          (fun pr => parse_date_from_node pr.1) = none →
        Work.scrape doc work_id = .error "Missing Update Date") ∧
    (∀ tp d1 d2 e, (Document.find doc titleSel).head? = some tp →
        (Document.find doc publishedSel).head?.bind
          (fun pr => parse_date_from_node pr.1) = some d1 →
        (Document.find doc updatedSel).head?.bind
          (fun pr => parse_date_from_node pr.1) = some d2 →
        collectExcept (fun pr => Chapter.scrape pr.1 pr.2)
          (Document.find doc chaptersSel) = .error e →
        Work.scrape doc work_id = .error e) ∧
    (∀ e w, Work.scrape doc work_id = .error e →
        Work.scrape doc work_id ≠ .ok w) := by
  refine ⟨?_, ?_, ?_, ?_, ?_⟩
  · intro h
    simp only [Work.scrape, h]
  · rintro ⟨tn, ta⟩ htp hpub
    simp only [Work.scrape, htp, hpub]
  · rintro ⟨tn, ta⟩ d1 htp hpub hupd
    simp only [Work.scrape, htp, hpub, hupd]
  · rintro ⟨tn, ta⟩ d1 d2 e htp hpub hupd hch
    simp only [Work.scrape, htp, hpub, hupd, hch]
  · intro e w he hw
    rw [he] at hw
    exact Except.noConfusion hw

theorem c3_witness :
    Work.scrape [] 1 = .error "Missing Work Title" ∧
    Work.scrape docNoDate 7 = .error "Missing Publish Date" ∧
    Work.scrape docBadUpdate 7 = .error "Missing Update Date" ∧
    Work.scrape docBadChapter 7 = .error "Missing Chapter Title" ∧
    Work.scrape [] 1 ≠ .ok sampleWork :=
  ⟨(c3_missing_field_aborts [] 1).1 rfl,
   (c3_missing_field_aborts docNoDate 7).2.1 _ rfl rfl,
   (c3_missing_field_aborts docBadUpdate 7).2.2.1 _ _ rfl rfl rfl,
   (c3_missing_field_aborts docBadChapter 7).2.2.2.1 _ _ _ _ rfl rfl rfl rfl,
   (c3_missing_field_aborts [] 1).2.2.2.2 _ _
     ((c3_missing_field_aborts [] 1).1 rfl)⟩

/-- C4: whenever extraction succeeds, the Work's chapter sequence has
exactly one Chapter per element matching the chapter-container selector
(`Attr("id", "chapters").child(Class("chapter"))`), in document order:
the i-th chapter is the scrape of the i-th matching element. -/
theorem c4_chapters_in_document_order (doc : Document) (work_id : ℕ) (w : Work)
    (h : Work.scrape doc work_id = .ok w) :
    collectExcept (fun pr => Chapter.scrape pr.1 pr.2)
        (Document.find doc chaptersSel) = .ok w.chapters ∧
    w.chapters.length = (Document.find doc chaptersSel).length ∧
    ∀ (i : ℕ) (hi : i < (Document.find doc chaptersSel).length)
        (hw : i < w.chapters.length),
      Chapter.scrape ((Document.find doc chaptersSel).get ⟨i, hi⟩).1
          ((Document.find doc chaptersSel).get ⟨i, hi⟩).2 =
        .ok (w.chapters.get ⟨i, hw⟩) := by
  unfold Work.scrape at h
  split at h
  · exact Except.noConfusion h
  next tn ta htp =>
    split at h
    · exact Except.noConfusion h
    next d1 hpub =>
      split at h
      · exact Except.noConfusion h
      next d2 hupd =>
        split at h
        next e hch => exact Except.noConfusion h
        next chs hch =>
          injection h with h'
          rw [← h']
          refine ⟨hch, ?_, ?_⟩
          · exact collectExcept_ok_length _ _ _ hch
          · intro i hi hw
            exact collectExcept_ok_get _ _ _ hch i hi hw

theorem c4_witness :
    Work.scrape sampleDoc 12345 = .ok sampleWork ∧
    collectExcept (fun pr => Chapter.scrape pr.1 pr.2)
        (Document.find sampleDoc chaptersSel) = .ok sampleWork.chapters ∧
    sampleWork.chapters.length = (Document.find sampleDoc chaptersSel).length :=
  ⟨by decide,
   (c4_chapters_in_document_order sampleDoc 12345 sampleWork (by decide)).1,
   (c4_chapters_in_document_order sampleDoc 12345 sampleWork (by decide)).2.1⟩

/-- C2 counterexample: a present-but-malformed publish date
(`"07/04/2021"`) makes extraction fail with the error
`"Missing Publish Date"` — the very same error the code produces when the
publish-date element is absent, so no distinct format error exists;
`"2021-07-04"` does parse successfully. -/
theorem c2_counterexample :
    Work.scrape (docWithDate "07/04/2021") 1 = .error "Missing Publish Date" ∧
    Work.scrape docNoDate 1 = .error "Missing Publish Date" ∧
    parse_ymd "2021-07-04" = some ⟨2021, 7, 4⟩ :=
  ⟨rfl, rfl, rfl⟩

/-- C2 (amended): a present-but-unparsable publish-date text aborts the
whole extraction, but with the same `"Missing Publish Date"` error that an
absent publish-date element produces (`parse_from_str`'s failure is folded
into the `ok_or` by `and_then`, so no distinct format error exists);
`"2021-07-04"` parses successfully and extraction proceeds past the
publish date. -/
theorem c2_date_format (doc : Document) (work_id : ℕ) :
    (∀ tp pr, (Document.find doc titleSel).head? = some tp →
        (Document.find doc publishedSel).head? = some pr →
        parse_date_from_node pr.1 = none →
        Work.scrape doc work_id = .error "Missing Publish Date") ∧
    (∀ tp, (Document.find doc titleSel).head? = some tp →
        (Document.find doc publishedSel).head? = none →
        Work.scrape doc work_id = .error "Missing Publish Date") ∧
    parse_ymd "2021-07-04" = some ⟨2021, 7, 4⟩ ∧
    parse_ymd "07/04/2021" = none ∧
    Work.scrape (docWithDate "2021-07-04") 1 = .error "Missing Update Date" := by
  refine ⟨?_, ?_, rfl, rfl, rfl⟩
  · rintro ⟨tn, ta⟩ pr htp hpr hparse
    have hbind : (Document.find doc publishedSel).head?.bind
        (fun pr => parse_date_from_node pr.1) = none := by
      rw [hpr]
      exact hparse
    simp only [Work.scrape, htp, hbind]
  · rintro ⟨tn, ta⟩ htp hpr
    have hbind : (Document.find doc publishedSel).head?.bind
        (fun pr => parse_date_from_node pr.1) = none := by
      rw [hpr]
      rfl
    simp only [Work.scrape, htp, hbind]

theorem c2_witness :
    Work.scrape (docWithDate "07/04/2021") 12345 = .error "Missing Publish Date" ∧
    Work.scrape docNoDate 12345 = .error "Missing Publish Date" :=
  ⟨(c2_date_format (docWithDate "07/04/2021") 12345).1 _ _ rfl rfl rfl,
   (c2_date_format docNoDate 12345).2.1 _ rfl rfl⟩

/-- C9: a scraped Chapter's link is the `href` of the first anchor inside
the chapter's first title-class element, prefixed with the site origin
`https://archiveofourown.org`; a missing title element, anchor, or `href`
attribute each fails with its own error. -/
theorem c9_chapter_link (n : Node) (anc : List Node) :
    ((n.findDesc anc (.cls "title")).head? = none →
        Chapter.scrape n anc = .error "Missing Chapter Title") ∧
    (∀ tn ta, (n.findDesc anc (.cls "title")).head? = some (tn, ta) →
        (tn.findDesc ta (.name "a")).head? = none →
        Chapter.scrape n anc = .error "Missing Chapter Link") ∧
    (∀ tn ta ln la, (n.findDesc anc (.cls "title")).head? = some (tn, ta) →
        (tn.findDesc ta (.name "a")).head? = some (ln, la) →
        ln.attr "href" = none →
        Chapter.scrape n anc = .error "Missing href?") ∧
    (∀ tn ta ln la href ch,
        (n.findDesc anc (.cls "title")).head? = some (tn, ta) →
        (tn.findDesc ta (.name "a")).head? = some (ln, la) →
        ln.attr "href" = some href →
        Chapter.scrape n anc = .ok ch →
        ch.link = "https://archiveofourown.org" ++ href) := by
  refine ⟨?_, ?_, ?_, ?_⟩
  · intro h
    simp only [Chapter.scrape, h]
  · intro tn ta htp ha
    simp only [Chapter.scrape, htp, ha]
  · intro tn ta ln la htp ha hh
    simp only [Chapter.scrape, htp, ha, hh]
  · intro tn ta ln la href ch htp ha hh hok
    simp only [Chapter.scrape, htp, ha, hh] at hok
    split at hok
    · exact Except.noConfusion hok
    · injection hok with h'
      rw [← h']

theorem c9_witness :
    Chapter.scrape (.elem "div" [("class", "chapter")] []) []
        = .error "Missing Chapter Title" ∧
    Chapter.scrape chapterNoAnchor [] = .error "Missing Chapter Link" ∧
    Chapter.scrape chapterNoHref [] = .error "Missing href?" ∧
    sampleChapterRec1.link = "https://archiveofourown.org" ++ "/works/12345/chapters/1" :=
  ⟨(c9_chapter_link (.elem "div" [("class", "chapter")] []) []).1 rfl,
   (c9_chapter_link chapterNoAnchor []).2.1 _ _ rfl rfl,
   (c9_chapter_link chapterNoHref []).2.2.1 _ _ _ _ rfl rfl rfl,
   (c9_chapter_link sampleChapter1 []).2.2.2 _ _ _ _ _ _ rfl rfl rfl rfl⟩

/-- C10: rich text is handled asymmetrically: a successfully scraped
Work's summary is the plain text (`Node::text`, markup stripped) of the
first work-summary match, whereas a successfully scraped Chapter's summary
and content are the inner HTML (`Node::inner_html`, markup preserved) of
their matched elements; on an element wrapping `<em>` markup the two
extractors differ exactly by the markup. -/
theorem c10_rich_text_asymmetry :
    (∀ doc work_id w, Work.scrape doc work_id = .ok w →
        w.summary = ((Document.find doc workSummarySel).head?).map
          (fun pr => Node.text pr.1)) ∧
    (∀ n anc ch, Chapter.scrape n anc = .ok ch →
        ch.summary = ((n.findDesc anc chapterSummarySel).head?).map
          (fun pr => pr.1.inner_html) ∧
        ∃ cnode, n.children.find?
            (fun c => Pred.matches (.cls "userstuff") c (n :: anc)) = some cnode ∧
          ch.content = cnode.inner_html) ∧
    Node.text (.elem "div" [] [.elem "em" [] [.txt "plain"]]) = "plain" ∧
    Node.inner_html (.elem "div" [] [.elem "em" [] [.txt "plain"]]) = "<em>plain</em>" := by
  refine ⟨?_, ?_, rfl, rfl⟩
  · intro doc work_id w h
    unfold Work.scrape at h
    split at h
    · exact Except.noConfusion h
    next tn ta htp =>
      split at h
      · exact Except.noConfusion h
      next d1 hpub =>
        split at h
        · exact Except.noConfusion h
        next d2 hupd =>
          split at h
          next e hch => exact Except.noConfusion h
          next chs hch =>
            injection h with h'
            rw [← h']
  · intro n anc ch h
    unfold Chapter.scrape at h
    split at h
    · exact Except.noConfusion h
    next tn ta htp =>
      split at h
      · exact Except.noConfusion h
      next ln la ha =>
        split at h
        · exact Except.noConfusion h
        next href hh =>
          split at h
          next hcontent => exact Except.noConfusion h
          next content hcontent =>
            injection h with h'
            rw [← h']
            refine ⟨rfl, ?_⟩
            obtain ⟨cnode, hc1, hc2⟩ := Option.map_eq_some'.mp hcontent
            exact ⟨cnode, hc1, hc2.symm⟩

theorem c10_witness :
    sampleWork.summary = ((Document.find sampleDoc workSummarySel).head?).map
        (fun pr => Node.text pr.1) ∧
    sampleChapterRec2.summary = ((sampleChapter2.findDesc [] chapterSummarySel).head?).map
        (fun pr => pr.1.inner_html) :=
  ⟨c10_rich_text_asymmetry.1 sampleDoc 12345 sampleWork rfl,
   (c10_rich_text_asymmetry.2.1 sampleChapter2 [] sampleChapterRec2 rfl).1⟩

/-- C6: feed synthesis maps the Work onto the channel: title, summary (or
the fixed default "AO3 Fic"), the canonical link built from the numeric
id, pubDate and lastBuildDate rendered by `rfc822` at midnight UTC, and
the rich-content namespace declaration; `rfc822` renders 2020-01-01 as
`Wed, 01 Jan 2020 00:00:00 +0000` and 2020-01-02 as
`Thu, 02 Jan 2020 00:00:00 +0000`. -/
theorem c6_feed_mapping :
    (∀ w c, Work.to_rss w = some c →
        c.title = w.title ∧
        c.description = w.summary.getD "AO3 Fic" ∧
        c.link = "https://archiveofourown.org/works/" ++ toString w.work_id ∧
        c.pub_date = some (rfc822 w.publish_date) ∧
        c.last_build_date = some (rfc822 w.update_date) ∧
        c.namespaces = [("content", "http://purl.org/rss/1.0/modules/content/")]) ∧
    rfc822 ⟨2020, 1, 1⟩ = "Wed, 01 Jan 2020 00:00:00 +0000" ∧
    rfc822 ⟨2020, 1, 2⟩ = "Thu, 02 Jan 2020 00:00:00 +0000" := by
  refine ⟨?_, rfl, rfl⟩
  intro w c h
  unfold Work.to_rss at h
  split at h
  · exact Option.noConfusion h
  next items hitems =>
    unfold ChannelBuilder.build at h
    injection h with h'
    rw [← h']
    exact ⟨rfl, rfl, rfl, rfl, rfl, rfl⟩

/-- The channel synthesized from `sampleWork`. -/
def sampleChannel : Channel :=
  { title := "Sample Fic"
    description := "A summary."
    link := "https://archiveofourown.org/works/12345"
    pub_date := some "Wed, 01 Jan 2020 00:00:00 +0000"
    last_build_date := some "Thu, 02 Jan 2020 00:00:00 +0000"
    generator := some "https://github.com/kitlith/ao3rss_rs"
    namespaces := [("content", "http://purl.org/rss/1.0/modules/content/")]
    items :=
      [ { title := some "Chapter 1: One"
          link := some "https://archiveofourown.org/works/12345/chapters/1"
          description := none
          content := some "Content one."
          guid := some { value := "https://archiveofourown.org/works/12345/chapters/1"
                         permalink := true } }
      , { title := some "Chapter 2: Two"
          link := some "https://archiveofourown.org/works/12345/chapters/2"
          description := some "<em>Ch2 sum</em>"
          content := some "<p>Content two.</p>"
          guid := some { value := "https://archiveofourown.org/works/12345/chapters/2"
                         permalink := true } } ] }

theorem c6_witness :
    Work.to_rss sampleWork = some sampleChannel ∧
    sampleChannel.title = sampleWork.title ∧
    sampleChannel.link = "https://archiveofourown.org/works/"
      ++ toString sampleWork.work_id ∧
    sampleChannel.pub_date = some (rfc822 sampleWork.publish_date) :=
  ⟨rfl,
   (c6_feed_mapping.1 sampleWork sampleChannel rfl).1,
   (c6_feed_mapping.1 sampleWork sampleChannel rfl).2.2.1,
   (c6_feed_mapping.1 sampleWork sampleChannel rfl).2.2.2.1⟩

theorem optionMapM_ne_none {α β : Type} (f : α → Option β)
    (hf : ∀ a, f a ≠ none) : ∀ l : List α, l.mapM f ≠ none := by
  intro l
  induction l with
  | nil =>
    intro h
    rw [List.mapM_nil] at h
    exact Option.noConfusion h
  | cons a rest ih =>
    intro h
    rw [List.mapM_cons] at h
    cases hfa : f a with
    | none => exact hf a hfa
    | some b =>
      rw [hfa] at h
      cases hm : rest.mapM f with
      | none => exact ih hm
      | some bs =>
        rw [hm] at h
        exact Option.noConfusion h

/-- C8: feed synthesis is total on Works: every builder step of
`Work::to_rss` succeeds (all builder fields have defaults), so the
`unwrap` calls are unreachable and a channel is always produced. -/
theorem c8_to_rss_never_fails (w : Work) : ∃ c, Work.to_rss w = some c := by
  unfold Work.to_rss
  split
  next hnone =>
    exact absurd hnone
      (optionMapM_ne_none chapterItem (fun ch h => Option.noConfusion h) w.chapters)
  next items hitems =>
    exact ⟨_, rfl⟩

end Ao3rss
